import Mathlib

/-!
Shallow embedding of the SCKM-SAMPLe core (src/main.rs): the SCKM model
struct, its constructor, `train`, `same_cluster`, `update_data`, and the
value types `BoolPoint`, `LabelBoolPoint`, `LabelEnum`, `TaskState`,
`ConnectEnum`, `JobU8`, `Trained`.

Conventions of the embedding:
* Rust `Vec<T>` becomes `List T`; Rust `option<T>` becomes `Option T`.
* The `u8` field of `JobU8` is a `Nat` kept below `2 ^ 8` by reducing
  modulo `256` at the single write site (u8 truncation).
* `&mut self` methods become functions `SCKM → ... → SCKM` (or
  `Option SCKM` when the method can spin forever); `&self` methods
  cannot mutate, which the embedding records explicitly.
* A Rust panic (an `unwrap` of `None`) is the outer `none` of a
  `Option`-wrapped return value.
-/

/-- Rust `enum LabelEnum` (src/main.rs lines 144-147): the two labels. -/
inductive LabelEnum where
  | malware
  | accept
deriving DecidableEq

/-- Rust `enum TaskState` (src/main.rs lines 158-162): lifecycle flag. -/
inductive TaskState where
  | done
  | ready
  | pending
deriving DecidableEq

/-- Rust `enum ConnectEnum` (src/main.rs lines 173-176), keeping the
source's spelling `seperate`. -/
inductive ConnectEnum where
  | linked
  | seperate
deriving DecidableEq

/-- Rust `struct BoolPoint` (src/main.rs lines 139-141): a point in
boolean space. -/
structure BoolPoint where
  point : List Bool
deriving DecidableEq

/-- Rust `struct LabelBoolPoint` (src/main.rs lines 133-136): a possibly
labeled point. -/
structure LabelBoolPoint where
  data : BoolPoint
  label : Option LabelEnum
deriving DecidableEq

/-- Rust `struct JobU8` (src/main.rs lines 187-190): an optional `u8`
with the state of the task computing it. The `u8` is embedded as a `Nat`
reduced modulo `256` wherever a value is written. -/
structure JobU8 where
  num : Option Nat
  job : TaskState
deriving DecidableEq

/-- Rust `JobU8::new` (src/main.rs lines 203-209). -/
def JobU8.new (new_num : Option Nat) (new_job : TaskState) : JobU8 :=
  { num := new_num, job := new_job }

/-- Rust `JobU8::make` (src/main.rs lines 211-213): the initial state of
a `JobU8`. -/
def JobU8.make : JobU8 :=
  JobU8.new none TaskState.ready

/-- Rust `struct Trained` (src/main.rs line 216): unit struct returned
on a completed training attempt. -/
inductive Trained where
  | mk
deriving DecidableEq

/-- Rust `struct SCKM` (src/main.rs lines 42-51): dataset, wrapped
cluster centers (`result`), the cluster-count job, and the trained
flag. -/
structure SCKM where
  data : List LabelBoolPoint
  result : List (Option BoolPoint)
  num_centers : JobU8
  trained : TaskState
deriving DecidableEq

/-- Modelled from the spec: the identifier `intial_result` used by
`SCKM::new` (src/main.rs line 60) is defined nowhere in the source. The
spec (§3 Lifecycle, §4.2 step 1) initializes the model with every point
its own singleton cluster, so the initial center list is the data points
themselves, each wrapped in `Some`. -/
def intial_result (given_data : List LabelBoolPoint) : List (Option BoolPoint) :=
  given_data.map (fun p => some p.data)

/-- Rust `SCKM::new` (src/main.rs lines 56-63). The source's struct
literal sets `data`, `result` and `trained` but omits the `num_centers`
field (a slip: Rust rejects a struct literal with a missing field).
Modelled from the spec: `num_centers` starts as the initial state of a
`JobU8`, which the source provides as `JobU8::make` (count `None`, task
`ready`). -/
def SCKM.new (given_data : List LabelBoolPoint) : SCKM :=
  { data := given_data
    result := intial_result given_data
    num_centers := JobU8.make
    trained := TaskState.ready }

/-- Hamming distance over the zipped coordinates of the two vectors
(spec glossary; coordinates beyond the shorter vector's length do not
participate). Used by the center-based oracle. -/
def hamming_distance (a b : List Bool) : Nat :=
  ((a.zip b).filter (fun p => p.1 != p.2)).length

/-- Nearest-center search over an indexed center list: smallest Hamming
distance, ties broken by the lowest center index (spec §4.2a / §4.4).
Returns `none` only when the list is empty. -/
def nearest_center_of (v : List Bool) (ics : List (Nat × BoolPoint)) : Option Nat :=
  (ics.foldl
    (fun best ic =>
      match best with
      | none => some (ic.1, hamming_distance v ic.2.point)
      | some jd =>
          if hamming_distance v ic.2.point < jd.2 then
            some (ic.1, hamming_distance v ic.2.point)
          else
            some jd)
    none).map Prod.fst

/-- Nearest center in a plain center list (indices are positions). -/
def nearest_center (v : List Bool) (centers : List BoolPoint) : Option Nat :=
  nearest_center_of v centers.enum

/-- Modelled from the spec: `CenterBasedClustering::same_cluster`, called
by `SCKM::same_cluster` (src/main.rs line 103), is defined nowhere in the
source. Spec §4.4: compute the nearest center to `a` and to `b` with the
§4.2a distance-and-tie-break rule and no label constraints; return
`linked` when the two nearest-center indices agree, else `seperate`. -/
def CenterBasedClustering.same_cluster (a b : List Bool) (centers : List BoolPoint) :
    Option ConnectEnum :=
  match nearest_center a centers, nearest_center b centers with
  | some i, some j => some (if i = j then ConnectEnum.linked else ConnectEnum.seperate)
  | _, _ => none

/-- Unwrapping of every entry of the `result` vector, as performed by
`SCKM::same_cluster` (src/main.rs lines 95-101): `none` exactly when some
entry is `None`, in which case the Rust `unwrap` panics. -/
def unwrap_centers (result : List (Option BoolPoint)) : Option (List BoolPoint) :=
  result.foldr
    (fun x acc =>
      match x, acc with
      | some c, some l => some (c :: l)
      | _, _ => none)
    (some [])

/-- Rust `SCKM::same_cluster` (src/main.rs lines 93-104). It takes
`&self`, so it cannot mutate the model. Note that the body performs no
check of `self.trained` and no check of the argument lengths: it unwraps
the stored centers and delegates. The outer `Option` is the panic
channel of the `unwrap`: `none` means the call panics; `some r` means the
Rust call returns `r`. -/
def SCKM.same_cluster (m : SCKM) (a b : List Bool) : Option (Option ConnectEnum) :=
  match unwrap_centers m.result with
  | none => none
  | some raw_cluster_centers =>
      some (CenterBasedClustering.same_cluster a b raw_cluster_centers)

/-- One `same_cluster` call seen as (returned value, model afterwards):
the receiver is `&self` (src/main.rs line 93), so the model afterwards is
the model before, unchanged. -/
def SCKM.same_cluster_call (m : SCKM) (a b : List Bool) :
    Option (Option ConnectEnum) × SCKM :=
  (m.same_cluster a b, m)

/-- Rust `SCKM::update_data` (src/main.rs lines 107-121). The method
first spins while `self.trained == pending`; in the embedding a call in
the `pending` state therefore diverges, rendered as `none`. Otherwise it
builds `SCKM::new newdata` and copies its `data` and `result` fields over
(leaving `num_centers` untouched), finishing with `trained := ready`. -/
def SCKM.update_data (m : SCKM) (newdata : List LabelBoolPoint) : Option SCKM :=
  if m.trained = TaskState.pending then
    none
  else
    let new_SCKM_object := SCKM.new newdata
    some { m with
            data := new_SCKM_object.data
            result := new_SCKM_object.result
            trained := TaskState.ready }

/-- Modelled from the spec: the label majority of a center (spec §4.2a
constraint enforcement). Among the labeled members currently assigned to
center `i`, the majority label, or `none` on a tie or when no member is
labeled. -/
def center_label_majority (data : List LabelBoolPoint) (assign : List Nat) (i : Nat) :
    Option LabelEnum :=
  let members := (data.zip assign).filter (fun p => p.2 == i)
  let mal := (members.filter (fun p => p.1.label == some LabelEnum.malware)).length
  let acc := (members.filter (fun p => p.1.label == some LabelEnum.accept)).length
  if acc < mal then some LabelEnum.malware
  else if mal < acc then some LabelEnum.accept
  else none

/-- Modelled from the spec: whether a point with label `pl` may be
assigned to a center whose labeled-member majority is `maj` (spec §4.2a:
a `malware` point never goes to an `accept`-majority center and vice
versa). -/
def allowed_center (pl : Option LabelEnum) (maj : Option LabelEnum) : Bool :=
  match pl, maj with
  | some LabelEnum.malware, some LabelEnum.accept => false
  | some LabelEnum.accept, some LabelEnum.malware => false
  | _, _ => true

/-- Modelled from the spec: the assignment step (spec §4.2a). Each point
goes to the nearest center among those its label constraint allows
(majorities computed from the previous assignment); when no center is
allowed the point falls back to the unconstrained nearest center. -/
def assignment_step (data : List LabelBoolPoint) (centers : List BoolPoint)
    (assign : List Nat) : List Nat :=
  data.map (fun p =>
    let allowed := centers.enum.filter
      (fun ic => allowed_center p.label (center_label_majority data assign ic.1))
    match nearest_center_of p.data.point allowed with
    | some i => i
    | none => (nearest_center p.data.point centers).getD 0)

/-- Modelled from the spec: per-coordinate majority vote (spec §4.2b /
glossary), `true` on a strict majority of `true` votes. -/
def majority_vote (bits : List Bool) : Bool :=
  bits.length < 2 * (bits.filter id).length

/-- Modelled from the spec: recomputation of one center as the
per-coordinate mode of its current members (spec §4.2b); a center with no
members keeps its previous value so that it stays in the list (spec §4.2
step 3 counts the non-empty ones). -/
def center_update (data : List LabelBoolPoint) (assign : List Nat) (i : Nat)
    (old : BoolPoint) : BoolPoint :=
  let members := ((data.zip assign).filter (fun p => p.2 == i)).map
    (fun p => p.1.data.point)
  if members.isEmpty then old
  else
    ⟨(List.range old.point.length).map
      (fun j => majority_vote (members.filterMap (fun mp => mp.get? j)))⟩

/-- Modelled from the spec: the update step (spec §4.2b), recomputing the
whole center list. -/
def update_step (data : List LabelBoolPoint) (assign : List Nat)
    (centers : List BoolPoint) : List BoolPoint :=
  centers.enum.map (fun ic => center_update data assign ic.1 ic.2)

/-- Modelled from the spec: the bounded training loop of spec §4.2 step 2
(the body of `SCKM::training_iteration`, src/main.rs lines 127-129, is an
empty `TODO`). Up to `eta` iterations of assignment step, update step and
convergence check, stopping early when no point changed assignment.
Returns the final centers, the final assignment, and the number of
iterations performed. -/
def training_loop (data : List LabelBoolPoint) :
    Nat → List BoolPoint → List Nat → List BoolPoint × List Nat × Nat
  | 0, centers, assign => (centers, assign, 0)
  | Nat.succ fuel, centers, assign =>
      let a := assignment_step data centers assign
      let c := update_step data a centers
      if a = assign then (c, a, 1)
      else
        let r := training_loop data fuel c a
        (r.1, r.2.1, r.2.2 + 1)

/-- Modelled from the spec: the resolved cluster count (spec §4.2 step
3), the number of centers with at least one assigned member. -/
def non_empty_center_count (centers : List BoolPoint) (assign : List Nat) : Nat :=
  ((List.range centers.length).filter (fun i => assign.contains i)).length

/-- Modelled from the spec: the whole Training Engine run launched by the
`while self.trained == pending` loop of `SCKM::train` (src/main.rs lines
82-85); the iteration body itself is the unimplemented
`SCKM::training_iteration`. Per spec §4.2: start from the stored centers
(step 1 reuses existing centers; the initial assignment gives every point
its own cluster), loop up to `eta`, then record the cluster count in the
cluster-count job as `done` (truncated to the `u8` field) and set the
controller state to `done`. -/
def SCKM.training_engine (m : SCKM) (eta : Nat) : SCKM :=
  let r := training_loop m.data eta m.result.reduceOption (List.range m.data.length)
  { m with
      result := r.1.map some
      num_centers := JobU8.new (some (non_empty_center_count r.1 r.2.1 % 256)) TaskState.done
      trained := TaskState.done }

/-- Number of training iterations a proceeding `train eta` call performs
on model `m` (the third component of the `training_loop` run that
`SCKM.training_engine` makes). -/
def SCKM.train_used (m : SCKM) (eta : Nat) : Nat :=
  (training_loop m.data eta m.result.reduceOption (List.range m.data.length)).2.2

/-- The state `SCKM::train` (src/main.rs lines 74-80) establishes before
the engine loop runs: `trained` set to `pending`, and `num_centers` reset
to the literal `JobU8 { num: 0_u8, job: pending }` of src/main.rs lines
77-80 (the source writes the value `0`, not `None`, into the
`option<u8>` field). -/
def SCKM.trainPre (m : SCKM) : SCKM :=
  { m with
      trained := TaskState.pending
      num_centers := JobU8.new (some 0) TaskState.pending }

/-- Rust `SCKM::train` (src/main.rs lines 69-90): when `self.trained` is
not `ready`, return `None` with no mutation; otherwise set the pre-engine
state (`pending`, reset cluster-count job), run the engine loop until it
flips `trained` to `done`, and return `Some(Trained)`. -/
def SCKM.train (m : SCKM) (eta : Nat) : Option Trained × SCKM :=
  if m.trained = TaskState.ready then
    (some Trained.mk, (m.trainPre).training_engine eta)
  else
    (none, m)

/-- An operation invoked on the model: the three public methods of the
`SCKMModel` trait (src/main.rs lines 14-33). -/
inductive Op where
  | trainOp : Nat → Op
  | updateOp : List LabelBoolPoint → Op
  | queryOp : List Bool → List Bool → Op
deriving DecidableEq

/-- Which piece of code performs a write of the `trained` flag: the
`train` entry guard, the engine loop body, or `update_data`. -/
inductive OpKind where
  | trainK
  | engineK
  | updateK
deriving DecidableEq

/-- One observed transition of the `trained` flag: previous value, new
value, and the code that wrote it. -/
structure TEdge where
  src : TaskState
  dst : TaskState
  op : OpKind
deriving DecidableEq

/-- The sequence of `trained`-flag transitions an operation performs when
invoked on model `m`, read off src/main.rs: `train` writes `pending`
(line 75) then the engine loop ends by writing `done` (lines 82-89) when
the guard of line 71 passes, and writes nothing otherwise; `update_data`
spins forever when `trained` is `pending` (line 109, no writes happen)
and otherwise writes `pending` (line 111) then `ready` (line 119);
`same_cluster` takes `&self` and writes nothing. -/
def SCKM.trained_edges (m : SCKM) : Op → List TEdge
  | Op.trainOp _ =>
      if m.trained = TaskState.ready then
        [⟨TaskState.ready, TaskState.pending, OpKind.trainK⟩,
         ⟨TaskState.pending, TaskState.done, OpKind.engineK⟩]
      else []
  | Op.updateOp _ =>
      if m.trained = TaskState.pending then []
      else
        [⟨m.trained, TaskState.pending, OpKind.updateK⟩,
         ⟨TaskState.pending, TaskState.ready, OpKind.updateK⟩]
  | Op.queryOp _ _ => []

/-- The four transitions of the cycle stated by the spec (§3 TaskState
invariant, §4.1 state machine): `ready→pending` via `train`,
`pending→done` via the engine, `done→pending` via `update_data`,
`pending→ready` via the rebuild in `update_data`. -/
def spec_cycle : List TEdge :=
  [⟨TaskState.ready, TaskState.pending, OpKind.trainK⟩,
   ⟨TaskState.pending, TaskState.done, OpKind.engineK⟩,
   ⟨TaskState.done, TaskState.pending, OpKind.updateK⟩,
   ⟨TaskState.pending, TaskState.ready, OpKind.updateK⟩]

/-- The spec cycle extended with the one further transition the code
performs: `update_data` invoked in the `ready` state also writes
`ready→pending` before rebuilding. -/
def spec_cycle_amended : List TEdge :=
  spec_cycle ++ [⟨TaskState.ready, TaskState.pending, OpKind.updateK⟩]

/-- A one-point unlabeled dataset in dimension 1. -/
def d0 : List LabelBoolPoint :=
  [⟨⟨[false]⟩, none⟩]

/-- A two-point unlabeled dataset in dimension 1. -/
def d1 : List LabelBoolPoint :=
  [⟨⟨[false]⟩, none⟩, ⟨⟨[true]⟩, none⟩]

/-- The four-point labeled dataset of the spec's §8 scenario:
`000`/`001` labeled `accept`, `110`/`111` labeled `malware`. -/
def d4 : List LabelBoolPoint :=
  [⟨⟨[false, false, false]⟩, some LabelEnum.accept⟩,
   ⟨⟨[false, false, true]⟩, some LabelEnum.accept⟩,
   ⟨⟨[true, true, false]⟩, some LabelEnum.malware⟩,
   ⟨⟨[true, true, true]⟩, some LabelEnum.malware⟩]

/-- A 256-point dataset (dimension 1), large enough to overflow the `u8`
cluster-count field. -/
def d256 : List LabelBoolPoint :=
  List.replicate 256 ⟨⟨[false]⟩, none⟩

set_option maxRecDepth 10000

/-- The training loop performs at most `fuel` iterations. -/
theorem training_loop_used_le (data : List LabelBoolPoint) (fuel : Nat) :
    ∀ (centers : List BoolPoint) (assign : List Nat),
    (training_loop data fuel centers assign).2.2 ≤ fuel := by
  induction fuel with
  | zero =>
      intro centers assign
      simp [training_loop]
  | succ n ih =>
      intro centers assign
      simp only [training_loop]
      split
      · exact Nat.succ_le_succ (Nat.zero_le n)
      · exact Nat.succ_le_succ (ih _ _)

/-- C1. The spec says `same_cluster` on a model whose `trained` flag is
not `done` returns the not-trained failure value `None`. The code never
inspects `self.trained`: on a freshly constructed (untrained) model it
unwraps the initial singleton centers and returns an ordinary verdict,
here `Some(linked)`, not `None`. -/
theorem same_cluster_untrained_returns_verdict :
    (SCKM.new d0).trained ≠ TaskState.done ∧
    (SCKM.new d0).same_cluster [false] [false] = some (some ConnectEnum.linked) := by
  decide

/-- C3. `train(eta)` proceeds only from the `ready` state: otherwise it
returns `None` and mutates nothing; on proceeding it sets `trained` to
`pending` (the pre-engine state) before the engine runs and returns
`Some(Trained)`. -/
theorem train_guard_spec (m : SCKM) (eta : Nat) :
    (m.trained ≠ TaskState.ready → m.train eta = (none, m)) ∧
    (m.trained = TaskState.ready →
      (m.trainPre).trained = TaskState.pending ∧
      m.train eta = (some Trained.mk, (m.trainPre).training_engine eta)) := by
  constructor
  · intro h
    simp [SCKM.train, h]
  · intro h
    exact ⟨rfl, by simp [SCKM.train, h]⟩

/-- Witness for C3: a trained (hence not-`ready`) model rejects a second
`train` without mutation, and a fresh (`ready`) model proceeds through
the `pending` pre-engine state. -/
theorem train_guard_spec_witness :
    ((SCKM.new d0).train 1).2.train 2 = (none, ((SCKM.new d0).train 1).2) ∧
    ((SCKM.new d0).trainPre).trained = TaskState.pending ∧
    (SCKM.new d0).train 2 = (some Trained.mk, ((SCKM.new d0).trainPre).training_engine 2) :=
  ⟨(train_guard_spec (((SCKM.new d0).train 1).2) 2).1 (by decide),
   (train_guard_spec (SCKM.new d0) 2).2 (by decide)⟩

/-- C7. The spec's cluster-count-job invariant says the count is `Some`
exactly when the job is `done`, so in particular unresolved while
training is pending. The state `train` establishes before the engine runs
(src/main.rs lines 77-80) writes the literal value `0` — not `None` —
into the count while setting the job to `pending`, violating the
invariant. -/
theorem train_resets_count_resolved_while_pending :
    ((SCKM.new d0).trainPre).num_centers = JobU8.new (some 0) TaskState.pending ∧
    ¬ (((SCKM.new d0).trainPre).num_centers.num.isSome = true ↔
        ((SCKM.new d0).trainPre).num_centers.job = TaskState.done) := by
  decide

/-- C8. `same_cluster` takes `&self`: a call leaves the model unchanged,
so two consecutive calls on a trained model with the same arguments
return identical results. -/
theorem same_cluster_idempotent (m : SCKM) (a b : List Bool)
    (h : m.trained = TaskState.done) :
    ((m.same_cluster_call a b).2.same_cluster_call a b).1 = (m.same_cluster_call a b).1 ∧
    (m.same_cluster_call a b).2 = m :=
  ⟨rfl, rfl⟩

/-- Witness for C8 at a concrete trained model. -/
theorem same_cluster_idempotent_witness :
    ((SCKM.new d0).train 1).2.trained = TaskState.done ∧
    (((((SCKM.new d0).train 1).2.same_cluster_call [false] [true]).2.same_cluster_call
        [false] [true]).1 =
      (((SCKM.new d0).train 1).2.same_cluster_call [false] [true]).1 ∧
     (((SCKM.new d0).train 1).2.same_cluster_call [false] [true]).2 =
      ((SCKM.new d0).train 1).2) :=
  ⟨by decide,
   same_cluster_idempotent (((SCKM.new d0).train 1).2) [false] [true] (by decide)⟩

/-- C10. A completed `update_data` call replaces exactly the `data`,
`result` and `trained` fields; the cluster-count job `num_centers` is
left holding whatever value it held before the call. -/
theorem update_data_frames_num_centers (m : SCKM) (d : List LabelBoolPoint) (m1 : SCKM)
    (h : m.update_data d = some m1) :
    m1.num_centers = m.num_centers ∧
    m1 = { data := d, result := intial_result d, num_centers := m.num_centers,
           trained := TaskState.ready } := by
  unfold SCKM.update_data at h
  split at h
  · exact absurd h (by simp)
  · simp only [Option.some.injEq] at h
    subst h
    exact ⟨rfl, rfl⟩

/-- Witness for C10: updating a fresh model's data keeps its (initial)
cluster-count job. -/
theorem update_data_frames_num_centers_witness :
    (SCKM.new d0).update_data d1 = some (SCKM.new d1) ∧
    (SCKM.new d1).num_centers = (SCKM.new d0).num_centers :=
  ⟨by decide,
   (update_data_frames_num_centers (SCKM.new d0) d1 (SCKM.new d1) (by decide)).1⟩

/-- Unwrapping the initial wrapped centers gives back the data points. -/
theorem reduceOption_intial_result (d : List LabelBoolPoint) :
    (intial_result d).reduceOption = d.map (fun p => p.data) := by
  induction d with
  | nil => rfl
  | cons p t ih =>
      simpa [intial_result, List.reduceOption_cons_of_some] using ih

/-- Rewrapping the unwrapped initial centers gives the initial `result`
back. -/
theorem map_some_reduceOption_intial (d : List LabelBoolPoint) :
    List.map some ((intial_result d).reduceOption) = intial_result d := by
  rw [reduceOption_intial_result]
  simp [intial_result, List.map_map, Function.comp]

/-- With the singleton assignment, every center is non-empty. -/
theorem non_empty_center_count_range (c : List BoolPoint) :
    non_empty_center_count c (List.range c.length) = c.length := by
  unfold non_empty_center_count
  rw [List.filter_eq_self.mpr, List.length_range]
  intro a ha
  simpa [List.contains, List.elem_iff] using ha

/-- C2. A completed `update_data d` followed by `train eta` is
indistinguishable (return value and every model field) from `train eta`
on a freshly constructed `SCKM::new d`: `update_data` replaces `data`,
`result` and `trained` with the fresh model's, and the one field it does
not copy, `num_centers`, is overwritten by `train` before the engine
runs. -/
theorem update_then_train_eq_fresh_train (m : SCKM) (d : List LabelBoolPoint)
    (eta : Nat) (m1 : SCKM) (h : m.update_data d = some m1) :
    m1.train eta = (SCKM.new d).train eta := by
  unfold SCKM.update_data at h
  split at h
  · exact absurd h (by simp)
  · simp only [Option.some.injEq] at h
    subst h
    rfl

/-- Witness for C2 at concrete datasets. -/
theorem update_then_train_eq_fresh_train_witness :
    (SCKM.new d0).update_data d1 = some (SCKM.new d1) ∧
    (SCKM.new d1).train 3 = (SCKM.new d1).train 3 :=
  ⟨by decide, update_then_train_eq_fresh_train (SCKM.new d0) d1 3 (SCKM.new d1) (by decide)⟩

/-- C4 counterexample. `update_data` invoked on a freshly constructed
model (state `ready`, a reachable state) first writes `pending`: the
transition `ready→pending` is performed by `update_data`, which the
spec's cycle attributes to `train` alone — the cycle has no
`ready→pending` edge via `update_data`. -/
theorem update_data_from_ready_edge :
    (SCKM.new d0).trained_edges (Op.updateOp d1) =
      [⟨TaskState.ready, TaskState.pending, OpKind.updateK⟩,
       ⟨TaskState.pending, TaskState.ready, OpKind.updateK⟩] ∧
    (⟨TaskState.ready, TaskState.pending, OpKind.updateK⟩ : TEdge) ∉ spec_cycle := by
  decide

/-- C4 (amended). Every `trained`-flag transition any operation performs,
from any model state, lies in the spec's cycle extended with the one
extra edge `ready→pending` via `update_data`. -/
theorem trained_edges_in_amended_cycle (m : SCKM) (op : Op) :
    ((m.trained_edges op).all (fun e => spec_cycle_amended.contains e)) = true := by
  obtain ⟨dd, rr, nn, tt⟩ := m
  cases op <;> cases tt <;> rfl

/-- C5 counterexample. The cluster count is stored in a `u8`
(src/main.rs line 188): on a 256-point dataset, `train 0` records
`256 % 256 = 0`, not the dataset size. -/
theorem train_zero_eta_u8_overflow :
    d256 ≠ [] ∧ d256.length = 256 ∧
    ((SCKM.new d256).train 0).2.num_centers.num = some 0 ∧
    ((SCKM.new d256).train 0).2.num_centers.num ≠ some d256.length := by
  decide

/-- C5 (amended). On any non-empty dataset, `train 0` performs zero
training iterations, leaves the singleton initial assignment in place,
records the cluster count `n % 256` (`n` truncated to the `u8` field,
equal to `n` whenever `n ≤ 255`) as `done`, and sets the state to
`done`. -/
theorem train_zero_eta_spec (d : List LabelBoolPoint) (h : d ≠ []) :
    ((SCKM.new d).train 0).2.result = intial_result d ∧
    ((SCKM.new d).train 0).2.num_centers =
      JobU8.new (some (d.length % 256)) TaskState.done ∧
    ((SCKM.new d).train 0).2.trained = TaskState.done ∧
    (SCKM.new d).train_used 0 = 0 := by
  refine ⟨?_, ?_, ?_, ?_⟩
  · simp [SCKM.train, SCKM.new, SCKM.trainPre, SCKM.training_engine, training_loop,
      map_some_reduceOption_intial]
  · have hn : non_empty_center_count (d.map (fun p => p.data))
        (List.range d.length) = d.length := by
      have := non_empty_center_count_range (d.map (fun p => p.data))
      simpa using this
    simp [SCKM.train, SCKM.new, SCKM.trainPre, SCKM.training_engine, training_loop,
      reduceOption_intial_result, hn]
  · simp [SCKM.train, SCKM.new, SCKM.trainPre, SCKM.training_engine]
  · simp [SCKM.train_used, training_loop]

/-- Witness for C5 (amended) on a concrete two-point dataset. -/
theorem train_zero_eta_spec_witness :
    d1 ≠ [] ∧
    (((SCKM.new d1).train 0).2.result = intial_result d1 ∧
     ((SCKM.new d1).train 0).2.num_centers =
       JobU8.new (some (d1.length % 256)) TaskState.done ∧
     ((SCKM.new d1).train 0).2.trained = TaskState.done ∧
     (SCKM.new d1).train_used 0 = 0) :=
  ⟨by decide, train_zero_eta_spec d1 (by decide)⟩

/-- C6. A `train eta` call that proceeds terminates: the engine loop
performs at most `eta` iterations (the loop recursion is bounded by the
`eta` fuel, stopping earlier on convergence), and afterwards the state is
`done`. -/
theorem train_terminates_done (m : SCKM) (eta : Nat)
    (h : m.trained = TaskState.ready) :
    (m.train eta).2.trained = TaskState.done ∧ m.train_used eta ≤ eta := by
  constructor
  · simp [SCKM.train, h, SCKM.training_engine]
  · exact training_loop_used_le m.data eta _ _

/-- Witness for C6 on the spec's four-point scenario dataset. -/
theorem train_terminates_done_witness :
    ((SCKM.new d4).train 5).2.trained = TaskState.done ∧
    (SCKM.new d4).train_used 5 ≤ 5 :=
  train_terminates_done (SCKM.new d4) 5 (by decide)

/-- C9. The model's established dimension is 3 (every point of `d4`),
yet `same_cluster` on a trained model accepts a 1-dimensional first
argument: no dimension check exists anywhere on the call path, the
interface has no dimension-mismatch error value, and the call silently
computes Hamming distances over the overlapping coordinates and returns
an ordinary verdict. -/
theorem same_cluster_dimension_mismatch_verdict :
    ((SCKM.new d4).train 0).2.trained = TaskState.done ∧
    (∀ p ∈ d4, p.data.point.length = 3) ∧
    ([true] : List Bool).length ≠ 3 ∧
    ((SCKM.new d4).train 0).2.same_cluster [true] [true, false, true] =
      some (some ConnectEnum.seperate) := by
  decide
